import Mathlib

/-!
# Attestation-bound identity: quote validation, issuance and the Marble server bootstrap

A shallow embedding of

* `coordinator/quote/ertvalidator/ertvalidator.go` (`ERTValidator.Validate`, `ERTIssuer.Issue`),
* `coordinator/server/server.go` (`RunMarbleServer`, lines 82-92: the bind / signal / serve part).

Functions of other packages that the two files call (`enclave.VerifyRemoteReport`,
`enclave.GetRemoteReport`, `sha256.Sum256`, `PackageProperties.IsCompliant`, the `String` methods,
`net.Listen`, `grpc.Server.Serve`) are parameters of the embedding: every theorem holds for every
behaviour of these collaborators that has the Go type. The small library functions whose behaviour
is fixed by the Go language and standard library (`bytes.Equal`, `hex.EncodeToString`,
`binary.LittleEndian.Uint64`, slicing, `fmt` verbs on bytes and strings) are written out.
-/

namespace Marblerun

/-! ## Go values -/

/-- A Go `byte`. -/
abbrev Byte := Fin 256

/-- The constant `sha256.Size`, the length of the array returned by `sha256.Sum256`. -/
def sha256.Size : Nat := 32

/-- The array type `[sha256.Size]byte`. -/
structure Digest where
  bytes : List Byte
  size : bytes.length = sha256.Size
deriving DecidableEq

/-- A Go `[]byte` whose capacity is observable: `elems` are the elements `s[0], ..., s[len(s)-1]`,
`spare` the elements of the backing array between `len(s)` and `cap(s)`. -/
structure ByteSlice where
  elems : List Byte
  spare : List Byte
deriving DecidableEq

/-- The builtin `len(s)`. -/
def ByteSlice.len (s : ByteSlice) : Nat := s.elems.length

/-- The builtin `cap(s)`. -/
def ByteSlice.cap (s : ByteSlice) : Nat := s.elems.length + s.spare.length

/-- The slice expression `s[:high]`. For a slice operand the upper bound is checked against the
capacity; `none` is the run-time panic `slice bounds out of range [:high] with capacity cap(s)`. -/
def ByteSlice.sliceTo (s : ByteSlice) (high : Nat) : Option (List Byte) :=
  if high ≤ s.cap then some ((s.elems ++ s.spare).take high) else none

/-- A byte slice with no spare capacity, as produced by a conversion or a copy. -/
def ByteSlice.ofList (l : List Byte) : ByteSlice := ⟨l, []⟩

/-- A non-nil `error` returned by the attestation backend, described by the two observations
`Validate` makes of it: `err.Error()` and `errors.Is(err, attestation.ErrTCBLevelInvalid)`. -/
structure BackendError where
  Error : String
  IsTCBLevelInvalid : Bool
deriving DecidableEq

/-- The `error` built by `fmt.Errorf`: its message, and the operand of `%w` when there is one. -/
structure GoError where
  msg : String
  wrapped : Option BackendError
deriving DecidableEq

/-- The method `Error()` of an error built by `fmt.Errorf`. -/
def GoError.Error (e : GoError) : String := e.msg

/-- The method `Unwrap()` of an error built by `fmt.Errorf`. -/
def GoError.Unwrap (e : GoError) : Option BackendError := e.wrapped

/-- The run-time panics `Validate` can raise. -/
inductive Panic where
  /-- Raised by `report.Data[:len(hash)]`: slice bounds out of range `[:high]` with capacity `cap`. -/
  | sliceBounds (high cap : Nat)
  /-- Raised by `b[7]` in `binary.LittleEndian.Uint64`: index out of range `[index]` with length `len`. -/
  | indexOutOfRange (index len : Nat)
deriving DecidableEq

/-- How a call of `Validate` ends: with a panic, or by returning an `error` (`none` is `nil`). -/
inductive Outcome where
  | panicked (p : Panic)
  | returned (err : Option GoError)
deriving DecidableEq

/-- A call of `Validate`: the lines written to standard output, in order, and how the call ends. -/
structure Run where
  stdout : List String
  outcome : Outcome
deriving DecidableEq

/-- The fields of `attestation.Report` that `Validate` reads. `TCBStatus` is a `tcbstatus.Status`,
an unsigned integer with a `String` method. Only `Data` is the operand of a slice expression, so
only `Data` keeps its capacity; the other byte slices are read up to their length. -/
structure Report where
  Data : ByteSlice
  SecurityVersion : Nat
  Debug : Bool
  UniqueID : List Byte
  SignerID : List Byte
  ProductID : List Byte
  TCBStatus : Nat
deriving DecidableEq

/-- The type `quote.PackageProperties`; the pointer fields `*uint64` and `*uint` are options. -/
structure PackageProperties where
  Debug : Bool
  UniqueID : String
  SignerID : String
  ProductID : Option Nat
  SecurityVersion : Option Nat
  AcceptedTCBStatuses : List String
deriving DecidableEq

/-- The functions of other packages called by `Validate` and `Issue`. -/
structure Collaborators where
  /-- The function `enclave.VerifyRemoteReport`: a report and an `error` (`none` is `nil`). -/
  VerifyRemoteReport : List Byte → Report × Option BackendError
  /-- The function `enclave.GetRemoteReport`: the evidence and an `error` (`none` is `nil`). -/
  GetRemoteReport : List Byte → List Byte × Option BackendError
  /-- The function `sha256.Sum256`. -/
  Sum256 : List Byte → Digest
  /-- The method `pp.IsCompliant(reported)` of `quote.PackageProperties`. -/
  IsCompliant : PackageProperties → PackageProperties → Bool
  /-- The rendering of a `quote.PackageProperties` by the verb `%s`. -/
  ppString : PackageProperties → String
  /-- The method `String()` of `tcbstatus.Status`. -/
  statusString : Nat → String

/-! ## Library functions with a fixed behaviour -/

/-- The function `errors.Is(err, attestation.ErrTCBLevelInvalid)`; it is false on a `nil` error. -/
def errorsIsTCBLevelInvalid : Option BackendError → Bool
  | none => false
  | some e => e.IsTCBLevelInvalid

/-- The function `util.StringSliceContains`: a linear search for an equal string. -/
def util.StringSliceContains : List String → String → Bool
  | [], _ => false
  | v :: rest, str => if v = str then true else util.StringSliceContains rest str

/-- The function `bytes.Equal`. -/
def bytes.Equal (a b : List Byte) : Bool := decide (a = b)

/-- The function `hex.EncodeToString`: two lower-case hexadecimal digits per byte. -/
def hex.EncodeToString (src : List Byte) : String :=
  String.mk (List.flatten (src.map fun b => [Nat.digitChar (b.val / 16), Nat.digitChar (b.val % 16)]))

/-- The function `binary.LittleEndian.Uint64`; `none` is the panic of the bounds check `b[7]`. -/
def binary.LittleEndian.Uint64 : List Byte → Option Nat
  | b0 :: b1 :: b2 :: b3 :: b4 :: b5 :: b6 :: b7 :: _ =>
    some (b0.val ||| b1.val <<< 8 ||| b2.val <<< 16 ||| b3.val <<< 24 |||
      b4.val <<< 32 ||| b5.val <<< 40 ||| b6.val <<< 48 ||| b7.val <<< 56)
  | _ => none

/-- The verb `%v` on a byte array or byte slice: decimal elements in brackets, space separated. -/
def fmt.bytesV (l : List Byte) : String :=
  "[" ++ " ".intercalate (l.map fun b => toString b.val) ++ "]"

/-- The line written by `fmt.Println("Warning: TCB level invalid, but accepted by configuration",
report.TCBStatus)`: the operands separated by a space, then a newline. -/
def warningLine (status : String) : String :=
  "Warning: TCB level invalid, but accepted by configuration" ++ " " ++ status ++ "\n"

/-- The error `fmt.Errorf("TCB level invalid: %v", report.TCBStatus)`. -/
def errTCBLevelInvalid (status : String) : GoError :=
  ⟨"TCB level invalid: " ++ status, none⟩

/-- The error `fmt.Errorf("verifying quote: %w", err)`. -/
def errVerifyingQuote (err : BackendError) : GoError :=
  ⟨"verifying quote: " ++ err.Error, some err⟩

/-- The error `fmt.Errorf("hash(cert) != report.Data: %v != %v", hash, report.Data)`. -/
def errHashMismatch (hash : Digest) (data : ByteSlice) : GoError :=
  ⟨"hash(cert) != report.Data: " ++ fmt.bytesV hash.bytes ++ " != " ++ fmt.bytesV data.elems, none⟩

/-- The error `fmt.Errorf("PackageProperties not compliant:\nexpected: %s\ngot: %s", pp,
reportedProps)`, given the two renderings. -/
def errNotCompliant (expected got : String) : GoError :=
  ⟨"PackageProperties not compliant:\nexpected: " ++ expected ++ "\ngot: " ++ got, none⟩

/-! ## `ERTValidator.Validate` and `ERTIssuer.Issue` -/

/-- The value `reportedProps` built in lines 52-59; `none` when reading the product ID panics. -/
def reportedProps (report : Report) : Option PackageProperties :=
  match binary.LittleEndian.Uint64 report.ProductID with
  | none => none
  | some productID =>
    some {
      UniqueID := hex.EncodeToString report.UniqueID
      SignerID := hex.EncodeToString report.SignerID
      Debug := report.Debug
      ProductID := some productID
      SecurityVersion := some report.SecurityVersion
      AcceptedTCBStatuses := [] }

/-- Lines 45-65 of `Validate`: the binding check and the compliance check, entered with the
output written so far. -/
def Validate.afterVerify (E : Collaborators) (report : Report) (cert : List Byte)
    (pp : PackageProperties) (stdout : List String) : Run :=
  let hash := E.Sum256 cert
  match report.Data.sliceTo sha256.Size with
  | none => ⟨stdout, .panicked (.sliceBounds sha256.Size report.Data.cap)⟩
  | some leading =>
    if !bytes.Equal leading hash.bytes then
      ⟨stdout, .returned (some (errHashMismatch hash report.Data))⟩
    else
      match reportedProps report with
      | none => ⟨stdout, .panicked (.indexOutOfRange 7 report.ProductID.length)⟩
      | some reported =>
        if !E.IsCompliant pp reported then
          ⟨stdout, .returned (some (errNotCompliant (E.ppString pp) (E.ppString reported)))⟩
        else
          ⟨stdout, .returned none⟩

/-- The method `ERTValidator.Validate`. The infrastructure properties are accepted and ignored. -/
def Validate {Infra : Type} (E : Collaborators) (givenQuote cert : List Byte)
    (pp : PackageProperties) (_infra : Infra) : Run :=
  let (report, err) := E.VerifyRemoteReport givenQuote
  if errorsIsTCBLevelInvalid err then
    if util.StringSliceContains pp.AcceptedTCBStatuses (E.statusString report.TCBStatus) then
      Validate.afterVerify E report cert pp [warningLine (E.statusString report.TCBStatus)]
    else
      ⟨[], .returned (some (errTCBLevelInvalid (E.statusString report.TCBStatus)))⟩
  else
    match err with
    | some e => ⟨[], .returned (some (errVerifyingQuote e))⟩
    | none => Validate.afterVerify E report cert pp []

/-- The method `ERTIssuer.Issue`. -/
def Issue (E : Collaborators) (cert : List Byte) : List Byte × Option BackendError :=
  let hash := E.Sum256 cert
  E.GetRemoteReport hash.bytes

/-! ## Vocabulary of the specification -/

/-- Tests whether the string `s` starts with the string `p`. -/
def beginsWith (p s : String) : Bool := p.data.isPrefixOf s.data

/-- The string `part` occurs in the string `s`. -/
def Occurs (part s : String) : Prop := ∃ before after : String, s = before ++ part ++ after

/-- The error class `TCBRejected`: an error whose message is `TCB level invalid: <status>`. -/
def IsTCBRejected (e : GoError) : Bool := beginsWith "TCB level invalid: " e.msg

/-- The error class `EvidenceInvalid`: an error whose message is `verifying quote: ...`. -/
def IsEvidenceInvalid (e : GoError) : Bool := beginsWith "verifying quote: " e.msg

/-- The error class `IdentityMismatch`: an error whose message is `hash(cert) != report.Data: ...`. -/
def IsIdentityMismatch (e : GoError) : Bool := beginsWith "hash(cert) != report.Data: " e.msg

/-- The error class `PolicyNonCompliant`: an error whose message is
`PackageProperties not compliant: ...`. -/
def IsPolicyNonCompliant (e : GoError) : Bool := beginsWith "PackageProperties not compliant:" e.msg

/-- A call fails with an error of the given class. -/
def Run.failsWith (r : Run) (cls : GoError → Bool) : Bool :=
  match r.outcome with
  | .returned (some e) => cls e
  | _ => false

/-- Quote verification is passed: the backend returned no error, or it returned the degraded-trust
error and the status label of the report is accepted by the policy (lines 34-43 fall through). -/
def verificationPassed (E : Collaborators) (givenQuote : List Byte) (pp : PackageProperties) :
    Bool :=
  let (report, err) := E.VerifyRemoteReport givenQuote
  if errorsIsTCBLevelInvalid err then
    util.StringSliceContains pp.AcceptedTCBStatuses (E.statusString report.TCBStatus)
  else
    err.isNone

/-- The degraded-trust-but-accepted case of lines 35-37: the backend returned the degraded-trust
error and the status label of the report is accepted by the policy. -/
def degradedAccepted (E : Collaborators) (givenQuote : List Byte) (pp : PackageProperties) :
    Bool :=
  let (report, err) := E.VerifyRemoteReport givenQuote
  errorsIsTCBLevelInvalid err &&
    util.StringSliceContains pp.AcceptedTCBStatuses (E.statusString report.TCBStatus)

/-- The TCB step is passed: the call did not end in lines 34-43, that is, it did not return the
error of line 39 nor the error of line 42. -/
def Run.passedTCBStep (r : Run) : Bool :=
  !(r.failsWith IsTCBRejected) && !(r.failsWith IsEvidenceInvalid)

/-- The binding step is passed: the call went on to line 51, so it ends with the panic of the
product ID read, with the compliance error, or with `nil`. -/
def Run.passedBinding (r : Run) : Bool :=
  match r.outcome with
  | .panicked (.indexOutOfRange _ _) => true
  | .panicked (.sliceBounds _ _) => false
  | .returned none => true
  | .returned (some e) => IsPolicyNonCompliant e

/-- The backend model of the round trip: the report obtained by verifying evidence that
`GetRemoteReport(d)` returned without error carries `d` at the start of its user-data field. -/
def BackendRoundTrip (E : Collaborators) : Prop :=
  ∀ d ev : List Byte, E.GetRemoteReport d = (ev, none) →
    d <+: (E.VerifyRemoteReport ev).1.Data.elems

/-- A policy matching the report of the evidence `ev`: quote verification is passed under it (it
accepts the TCB status when the backend reports degraded trust), and it is compliant with the
reported properties. -/
def MatchingPolicy (E : Collaborators) (ev : List Byte) (pp : PackageProperties) : Prop :=
  verificationPassed E ev pp = true ∧
    ∃ reported, reportedProps (E.VerifyRemoteReport ev).1 = some reported ∧
      E.IsCompliant pp reported = true

/-- The byte `b` with bit `k` flipped. -/
def flipByteBit (b : Byte) (k : Fin 8) : Byte :=
  ⟨(b.val ^^^ 2 ^ k.val) % 256, Nat.mod_lt _ (by decide)⟩

/-- The certificate `c` with bit `k` of its byte `i` flipped; `c` itself when it has no byte `i`. -/
def flipBit : List Byte → Nat → Fin 8 → List Byte
  | [], _, _ => []
  | b :: rest, 0, k => flipByteBit b k :: rest
  | b :: rest, i + 1, k => b :: flipBit rest i k

/-- The contract of the backend on the TCB level: `VerifyRemoteReport` returns the degraded-trust
error exactly when the status label of the report it returns is not an OK label. The predicate
`isOK` tells the OK labels: the label of the up-to-date status, which is the zero value of
`tcbstatus.Status` and so also the status of a report that carries none. -/
def BackendTCBContract (E : Collaborators) (isOK : String → Bool) : Prop :=
  ∀ q : List Byte, errorsIsTCBLevelInvalid (E.VerifyRemoteReport q).2 = true ↔
    isOK (E.statusString (E.VerifyRemoteReport q).1.TCBStatus) = false

/-- The value of a byte string read as a little-endian unsigned integer, in the words of the
specification: the first byte is the least significant. -/
def littleEndianValue : List Byte → Nat
  | [] => 0
  | b :: rest => b.val + 256 * littleEndianValue rest

/-! ## `RunMarbleServer` (server.go, lines 82-92) -/

/-- A listening socket; `addr` is `socket.Addr().String()`. -/
structure Socket where
  addr : String
deriving DecidableEq

/-- How `grpcServer.Serve(socket)` ends: it blocks for ever, or it returns an `error`
(`none` is `nil`). -/
inductive ServeResult where
  | blocks
  | returns (err : Option String)
deriving DecidableEq

/-- The operating system and the gRPC server as seen by `RunMarbleServer`. Errors are identified
by their message. -/
structure Network where
  /-- The call `net.Listen("tcp", addr)`. -/
  Listen : String → Except String Socket
  /-- The call `grpcServer.Serve(socket)`. -/
  Serve : Socket → ServeResult

/-- The observable steps of `RunMarbleServer`. -/
inductive Event where
  /-- The send `addrChan <- socket.Addr().String()`. -/
  | sendAddr (addr : String)
  /-- The send `errChan <- err`. -/
  | sendErr (err : String)
  /-- The call `grpcServer.Serve(socket)`: the serve loop is entered. -/
  | serve (socket : Socket)
deriving DecidableEq

/-- The function `RunMarbleServer` from the call of `net.Listen` on, as the trace of its channel
sends and of the entry into the serve loop. The lines before (TLS configuration, interceptors,
registration of the service and of the metrics) perform no channel operation. -/
def RunMarbleServer (N : Network) (addr : String) : List Event :=
  match N.Listen addr with
  | .error err => [.sendErr err]
  | .ok socket =>
    [.sendAddr socket.addr, .serve socket] ++
      match N.Serve socket with
      | .returns (some err) => [.sendErr err]
      | .returns none => []
      | .blocks => []

/-- The addresses sent on `addrChan`, in order. -/
def addrSends : List Event → List String
  | [] => []
  | .sendAddr a :: rest => a :: addrSends rest
  | _ :: rest => addrSends rest

/-- The errors sent on `errChan`, in order. -/
def errSends : List Event → List String
  | [] => []
  | .sendErr e :: rest => e :: errSends rest
  | _ :: rest => errSends rest

/-- The sockets on which the serve loop is entered, in order. -/
def serveEntries : List Event → List Socket
  | [] => []
  | .serve s :: rest => s :: serveEntries rest
  | _ :: rest => serveEntries rest

/-- The part of a trace before the serve loop is entered. -/
def beforeServe : List Event → List Event
  | [] => []
  | .serve _ :: _ => []
  | e :: rest => e :: beforeServe rest

/-! ## Worked environment

One concrete choice of collaborators, used to evaluate the definitions on concrete inputs. -/

/-- A stand-in for the digest in the worked examples (not SHA-256): 32 copies of the sum of the
bytes of the input. -/
def Demo.sum (cert : List Byte) : Digest :=
  ⟨List.replicate 32 (cert.foldl (· + ·) 0), by simp [sha256.Size]⟩

/-- The report of the worked backend for the user data `d` and a TCB status. -/
def Demo.report (d : List Byte) (status : Nat) : Report where
  Data := ByteSlice.ofList (d ++ List.replicate (64 - d.length) 0)
  SecurityVersion := 3
  Debug := false
  UniqueID := [0xAB, 0x01]
  SignerID := [0xAA]
  ProductID := [1, 0, 0, 0, 0, 0, 0, 0]
  TCBStatus := status

/-- The report returned alongside a fatal error: the zero value of `attestation.Report`. -/
def Demo.zeroReport : Report where
  Data := ByteSlice.ofList []
  SecurityVersion := 0
  Debug := false
  UniqueID := []
  SignerID := []
  ProductID := []
  TCBStatus := 0

/-- The worked backend. Evidence is a tag byte followed by the user data: tag 0 verifies
cleanly, tag 1 verifies with degraded trust (status 1), anything else is rejected. -/
def Demo.verify : List Byte → Report × Option BackendError
  | [] => (Demo.zeroReport, some ⟨"OE_INVALID_PARAMETER", false⟩)
  | tag :: d =>
    if tag = 0 then (Demo.report d 0, none)
    else if tag = 1 then (Demo.report d 1, some ⟨"TCB level invalid", true⟩)
    else (Demo.zeroReport, some ⟨"OE_VERIFY_FAILED", false⟩)

/-- A compliance predicate for the worked examples: an exact unique ID when the policy has one,
else equal signer, equal product ID and a security version at least the expected one. -/
def Demo.isCompliant (pp reported : PackageProperties) : Bool :=
  if pp.UniqueID ≠ "" then pp.UniqueID = reported.UniqueID
  else
    pp.SignerID = reported.SignerID && pp.ProductID = reported.ProductID &&
      decide (pp.SecurityVersion.getD 0 ≤ reported.SecurityVersion.getD 0)

/-- The worked rendering of package properties: signer and unique ID. -/
def Demo.ppString (pp : PackageProperties) : String :=
  "signer=" ++ pp.SignerID ++ " unique=" ++ pp.UniqueID

/-- The worked status labels. -/
def Demo.statusString : Nat → String
  | 0 => "UpToDate"
  | 1 => "OutOfDate"
  | _ => "Unknown"

/-- The OK labels of the worked backend. -/
def Demo.isOK (label : String) : Bool := decide (label = "UpToDate")

/-- The worked collaborators. -/
def Demo.env : Collaborators where
  VerifyRemoteReport := Demo.verify
  GetRemoteReport := fun d => (0 :: d, none)
  Sum256 := Demo.sum
  IsCompliant := Demo.isCompliant
  ppString := Demo.ppString
  statusString := Demo.statusString

/-- The worked policy: signer `aa`, product 1, security version at least 2. -/
def Demo.policy (accepted : List String) : PackageProperties where
  Debug := false
  UniqueID := ""
  SignerID := "aa"
  ProductID := some 1
  SecurityVersion := some 2
  AcceptedTCBStatuses := accepted

/-- Collaborators whose backend answers every quote with the given report and error and whose
digest function is the given one; the other collaborators are the worked ones. -/
def Demo.envOf (sum256 : List Byte → Digest) (report : Report) (err : Option BackendError) :
    Collaborators where
  VerifyRemoteReport := fun _ => (report, err)
  GetRemoteReport := fun d => (d, none)
  Sum256 := sum256
  IsCompliant := Demo.isCompliant
  ppString := Demo.ppString
  statusString := Demo.statusString

/-- A worked network: binding `localhost:0` yields port 4242, any other address is in use; the
serve loop of the socket ends with an error. -/
def Demo.network : Network where
  Listen := fun addr =>
    if addr = "localhost:0" then .ok ⟨"127.0.0.1:4242"⟩ else .error "address already in use"
  Serve := fun _ => .returns (some "use of closed network connection")


/-! # Theorems

## Strings and the library functions -/

theorem beginsWith_append (p x : String) : beginsWith p (p ++ x) = true := by
  simp [beginsWith, String.data_append, List.isPrefixOf_iff_prefix]

theorem beginsWith_of_head_ne (p q x : String) (c d : Char)
    (hp : p.data.head? = some c) (hq : q.data.head? = some d) (hcd : c ≠ d) :
    beginsWith p (q ++ x) = false := by
  unfold beginsWith
  rw [String.data_append]
  cases hpd : p.data with
  | nil => simp [hpd] at hp
  | cons a ps =>
    cases hqd : q.data with
    | nil => simp [hqd] at hq
    | cons b qs =>
      simp only [hpd, hqd, List.head?_cons, Option.some.injEq] at hp hq
      subst hp hq
      simp [List.isPrefixOf, hcd]

theorem StringSliceContains_iff (l : List String) (s : String) :
    util.StringSliceContains l s = true ↔ s ∈ l := by
  induction l with
  | nil => simp [util.StringSliceContains]
  | cons v rest ih =>
    unfold util.StringSliceContains
    by_cases h : v = s
    · simp [h]
    · have h2 : ¬ s = v := fun e => h e.symm
      simp [h, h2, ih]

/-! ## The error classes are pairwise distinct -/

theorem errTCBLevelInvalid_class (s : String) :
    IsTCBRejected (errTCBLevelInvalid s) = true ∧
      IsEvidenceInvalid (errTCBLevelInvalid s) = false ∧
      IsIdentityMismatch (errTCBLevelInvalid s) = false ∧
      IsPolicyNonCompliant (errTCBLevelInvalid s) = false := by
  refine ⟨beginsWith_append _ _, ?_, ?_, ?_⟩
  · exact beginsWith_of_head_ne _ _ _ 'v' 'T' rfl rfl (by decide)
  · exact beginsWith_of_head_ne _ _ _ 'h' 'T' rfl rfl (by decide)
  · exact beginsWith_of_head_ne _ _ _ 'P' 'T' rfl rfl (by decide)

theorem errVerifyingQuote_class (e : BackendError) :
    IsEvidenceInvalid (errVerifyingQuote e) = true ∧
      IsTCBRejected (errVerifyingQuote e) = false ∧
      IsIdentityMismatch (errVerifyingQuote e) = false ∧
      IsPolicyNonCompliant (errVerifyingQuote e) = false := by
  refine ⟨beginsWith_append _ _, ?_, ?_, ?_⟩
  · exact beginsWith_of_head_ne _ _ _ 'T' 'v' rfl rfl (by decide)
  · exact beginsWith_of_head_ne _ _ _ 'h' 'v' rfl rfl (by decide)
  · exact beginsWith_of_head_ne _ _ _ 'P' 'v' rfl rfl (by decide)

theorem errHashMismatch_class (h : Digest) (d : ByteSlice) :
    IsIdentityMismatch (errHashMismatch h d) = true ∧
      IsTCBRejected (errHashMismatch h d) = false ∧
      IsEvidenceInvalid (errHashMismatch h d) = false ∧
      IsPolicyNonCompliant (errHashMismatch h d) = false := by
  unfold IsIdentityMismatch IsTCBRejected IsEvidenceInvalid IsPolicyNonCompliant errHashMismatch
  simp only [String.append_assoc]
  refine ⟨beginsWith_append _ _, ?_, ?_, ?_⟩
  · exact beginsWith_of_head_ne _ _ _ 'T' 'h' rfl rfl (by decide)
  · exact beginsWith_of_head_ne _ _ _ 'v' 'h' rfl rfl (by decide)
  · exact beginsWith_of_head_ne _ _ _ 'P' 'h' rfl rfl (by decide)

theorem errNotCompliant_class (a b : String) :
    IsPolicyNonCompliant (errNotCompliant a b) = true ∧
      IsTCBRejected (errNotCompliant a b) = false ∧
      IsEvidenceInvalid (errNotCompliant a b) = false ∧
      IsIdentityMismatch (errNotCompliant a b) = false := by
  unfold IsIdentityMismatch IsTCBRejected IsEvidenceInvalid IsPolicyNonCompliant errNotCompliant
  simp only [String.append_assoc]
  refine ⟨?_, ?_, ?_, ?_⟩
  · have h : "PackageProperties not compliant:\nexpected: " ++ (a ++ ("\ngot: " ++ b))
        = "PackageProperties not compliant:" ++ ("\nexpected: " ++ (a ++ ("\ngot: " ++ b))) := by
      rw [← String.append_assoc]; rfl
    rw [h]; exact beginsWith_append _ _
  · exact beginsWith_of_head_ne _ _ _ 'T' 'P' rfl rfl (by decide)
  · exact beginsWith_of_head_ne _ _ _ 'v' 'P' rfl rfl (by decide)
  · exact beginsWith_of_head_ne _ _ _ 'h' 'P' rfl rfl (by decide)

theorem errNotCompliant_occurs (a b : String) :
    Occurs a (errNotCompliant a b).Error ∧ Occurs b (errNotCompliant a b).Error := by
  constructor
  · exact ⟨"PackageProperties not compliant:\nexpected: ", "\ngot: " ++ b, by
      simp [GoError.Error, errNotCompliant, String.append_assoc]⟩
  · exact ⟨"PackageProperties not compliant:\nexpected: " ++ a ++ "\ngot: ", "", by
      simp [GoError.Error, errNotCompliant, String.append_assoc]⟩

/-! ## The four ways through lines 34-43 -/

theorem Validate_fatal {Infra : Type} (E : Collaborators) (q cert : List Byte)
    (pp : PackageProperties) (infra : Infra) (report : Report) (e : BackendError)
    (hv : E.VerifyRemoteReport q = (report, some e)) (he : e.IsTCBLevelInvalid = false) :
    Validate E q cert pp infra = ⟨[], .returned (some (errVerifyingQuote e))⟩ := by
  simp [Validate, hv, errorsIsTCBLevelInvalid, he]

theorem Validate_degraded_rejected {Infra : Type} (E : Collaborators) (q cert : List Byte)
    (pp : PackageProperties) (infra : Infra) (report : Report) (err : Option BackendError)
    (hv : E.VerifyRemoteReport q = (report, err)) (he : errorsIsTCBLevelInvalid err = true)
    (hacc : E.statusString report.TCBStatus ∉ pp.AcceptedTCBStatuses) :
    Validate E q cert pp infra =
      ⟨[], .returned (some (errTCBLevelInvalid (E.statusString report.TCBStatus)))⟩ := by
  have h : util.StringSliceContains pp.AcceptedTCBStatuses (E.statusString report.TCBStatus)
      = false := by
    rw [← Bool.not_eq_true, StringSliceContains_iff]; exact hacc
  simp [Validate, hv, he, h]

theorem Validate_degraded_accepted {Infra : Type} (E : Collaborators) (q cert : List Byte)
    (pp : PackageProperties) (infra : Infra) (report : Report) (err : Option BackendError)
    (hv : E.VerifyRemoteReport q = (report, err)) (he : errorsIsTCBLevelInvalid err = true)
    (hacc : E.statusString report.TCBStatus ∈ pp.AcceptedTCBStatuses) :
    Validate E q cert pp infra =
      Validate.afterVerify E report cert pp [warningLine (E.statusString report.TCBStatus)] := by
  have h : util.StringSliceContains pp.AcceptedTCBStatuses (E.statusString report.TCBStatus)
      = true := (StringSliceContains_iff _ _).2 hacc
  simp [Validate, hv, he, h]

theorem Validate_clean {Infra : Type} (E : Collaborators) (q cert : List Byte)
    (pp : PackageProperties) (infra : Infra) (report : Report)
    (hv : E.VerifyRemoteReport q = (report, none)) :
    Validate E q cert pp infra = Validate.afterVerify E report cert pp [] := by
  simp [Validate, hv, errorsIsTCBLevelInvalid]

/-! ## Lines 45-65 -/

theorem afterVerify_slice_panic (E : Collaborators) (report : Report) (cert : List Byte)
    (pp : PackageProperties) (out : List String)
    (hs : report.Data.sliceTo sha256.Size = none) :
    Validate.afterVerify E report cert pp out =
      ⟨out, .panicked (.sliceBounds sha256.Size report.Data.cap)⟩ := by
  simp [Validate.afterVerify, hs]

theorem afterVerify_mismatch (E : Collaborators) (report : Report) (cert : List Byte)
    (pp : PackageProperties) (out : List String) (leading : List Byte)
    (hs : report.Data.sliceTo sha256.Size = some leading)
    (hne : leading ≠ (E.Sum256 cert).bytes) :
    Validate.afterVerify E report cert pp out =
      ⟨out, .returned (some (errHashMismatch (E.Sum256 cert) report.Data))⟩ := by
  simp [Validate.afterVerify, hs, bytes.Equal, hne]

theorem afterVerify_index_panic (E : Collaborators) (report : Report) (cert : List Byte)
    (pp : PackageProperties) (out : List String)
    (hs : report.Data.sliceTo sha256.Size = some (E.Sum256 cert).bytes)
    (hr : reportedProps report = none) :
    Validate.afterVerify E report cert pp out =
      ⟨out, .panicked (.indexOutOfRange 7 report.ProductID.length)⟩ := by
  simp [Validate.afterVerify, hs, bytes.Equal, hr]

theorem afterVerify_not_compliant (E : Collaborators) (report : Report) (cert : List Byte)
    (pp : PackageProperties) (out : List String) (reported : PackageProperties)
    (hs : report.Data.sliceTo sha256.Size = some (E.Sum256 cert).bytes)
    (hr : reportedProps report = some reported) (hc : E.IsCompliant pp reported = false) :
    Validate.afterVerify E report cert pp out =
      ⟨out, .returned (some (errNotCompliant (E.ppString pp) (E.ppString reported)))⟩ := by
  simp [Validate.afterVerify, hs, bytes.Equal, hr, hc]

theorem afterVerify_compliant (E : Collaborators) (report : Report) (cert : List Byte)
    (pp : PackageProperties) (out : List String) (reported : PackageProperties)
    (hs : report.Data.sliceTo sha256.Size = some (E.Sum256 cert).bytes)
    (hr : reportedProps report = some reported) (hc : E.IsCompliant pp reported = true) :
    Validate.afterVerify E report cert pp out = ⟨out, .returned none⟩ := by
  simp [Validate.afterVerify, hs, bytes.Equal, hr, hc]

/-- The five ways through lines 45-65. -/
theorem afterVerify_cases (E : Collaborators) (report : Report) (cert : List Byte)
    (pp : PackageProperties) (out : List String) :
    Validate.afterVerify E report cert pp out =
        ⟨out, .panicked (.sliceBounds sha256.Size report.Data.cap)⟩ ∨
      Validate.afterVerify E report cert pp out =
        ⟨out, .returned (some (errHashMismatch (E.Sum256 cert) report.Data))⟩ ∨
      Validate.afterVerify E report cert pp out =
        ⟨out, .panicked (.indexOutOfRange 7 report.ProductID.length)⟩ ∨
      (∃ reported, Validate.afterVerify E report cert pp out =
        ⟨out, .returned (some (errNotCompliant (E.ppString pp) (E.ppString reported)))⟩) ∨
      Validate.afterVerify E report cert pp out = ⟨out, .returned none⟩ := by
  cases hs : report.Data.sliceTo sha256.Size with
  | none => exact Or.inl (afterVerify_slice_panic E report cert pp out hs)
  | some leading =>
    by_cases hne : leading = (E.Sum256 cert).bytes
    · subst hne
      cases hr : reportedProps report with
      | none => exact Or.inr (Or.inr (Or.inl (afterVerify_index_panic E report cert pp out hs hr)))
      | some reported =>
        cases hc : E.IsCompliant pp reported with
        | false =>
          exact Or.inr (Or.inr (Or.inr (Or.inl
            ⟨reported, afterVerify_not_compliant E report cert pp out reported hs hr hc⟩)))
        | true =>
          exact Or.inr (Or.inr (Or.inr (Or.inr
            (afterVerify_compliant E report cert pp out reported hs hr hc))))
    · exact Or.inr (Or.inl (afterVerify_mismatch E report cert pp out leading hs hne))

theorem afterVerify_stdout (E : Collaborators) (report : Report) (cert : List Byte)
    (pp : PackageProperties) (out : List String) :
    (Validate.afterVerify E report cert pp out).stdout = out := by
  rcases afterVerify_cases E report cert pp out with h | h | h | ⟨_, h⟩ | h <;> rw [h]

theorem afterVerify_passedTCBStep (E : Collaborators) (report : Report) (cert : List Byte)
    (pp : PackageProperties) (out : List String) :
    (Validate.afterVerify E report cert pp out).passedTCBStep = true := by
  rcases afterVerify_cases E report cert pp out with h | h | h | ⟨_, h⟩ | h <;> rw [h]
  · rfl
  · simp [Run.passedTCBStep, Run.failsWith, (errHashMismatch_class _ _).2.1,
      (errHashMismatch_class _ _).2.2.1]
  · rfl
  · simp [Run.passedTCBStep, Run.failsWith, (errNotCompliant_class _ _).2.1,
      (errNotCompliant_class _ _).2.2.1]
  · rfl

theorem afterVerify_not_TCBRejected (E : Collaborators) (report : Report) (cert : List Byte)
    (pp : PackageProperties) (out : List String) :
    (Validate.afterVerify E report cert pp out).failsWith IsTCBRejected = false := by
  rcases afterVerify_cases E report cert pp out with h | h | h | ⟨_, h⟩ | h <;> rw [h]
  · rfl
  · simp [Run.failsWith, (errHashMismatch_class _ _).2.1]
  · rfl
  · simp [Run.failsWith, (errNotCompliant_class _ _).2.1]
  · rfl

theorem afterVerify_nil_iff (E : Collaborators) (report : Report) (cert : List Byte)
    (pp : PackageProperties) (out : List String) :
    (Validate.afterVerify E report cert pp out).outcome = .returned none ↔
      report.Data.sliceTo sha256.Size = some (E.Sum256 cert).bytes ∧
        ∃ reported, reportedProps report = some reported ∧ E.IsCompliant pp reported = true := by
  cases hs : report.Data.sliceTo sha256.Size with
  | none => simp [afterVerify_slice_panic E report cert pp out hs]
  | some leading =>
    by_cases hne : leading = (E.Sum256 cert).bytes
    · subst hne
      cases hr : reportedProps report with
      | none => simp [afterVerify_index_panic E report cert pp out hs hr]
      | some reported =>
        cases hc : E.IsCompliant pp reported with
        | false => simp [afterVerify_not_compliant E report cert pp out reported hs hr hc, hc]
        | true => simp [afterVerify_compliant E report cert pp out reported hs hr hc, hc]
    · simp [afterVerify_mismatch E report cert pp out leading hs hne, hne]

/-- When quote verification is passed, the call continues with lines 45-65 on the report of the
backend; the output written so far is empty or the single warning line. -/
theorem Validate_of_passed {Infra : Type} (E : Collaborators) (q cert : List Byte)
    (pp : PackageProperties) (infra : Infra) (hpass : verificationPassed E q pp = true) :
    ∃ out, Validate E q cert pp infra =
      Validate.afterVerify E (E.VerifyRemoteReport q).1 cert pp out := by
  rcases hv : E.VerifyRemoteReport q with ⟨report, err⟩
  cases hd : errorsIsTCBLevelInvalid err with
  | true =>
    have hacc : E.statusString report.TCBStatus ∈ pp.AcceptedTCBStatuses := by
      rw [← StringSliceContains_iff]
      simpa [verificationPassed, hv, hd] using hpass
    exact ⟨_, Validate_degraded_accepted E q cert pp infra report err hv hd hacc⟩
  | false =>
    have hnone : err = none := by
      have := hpass
      simp [verificationPassed, hv, hd] at this
      exact this
    subst hnone
    exact ⟨_, Validate_clean E q cert pp infra report hv⟩

theorem sliceTo_of_len (s : ByteSlice) (n : Nat) (h : n ≤ s.len) :
    s.sliceTo n = some (s.elems.take n) := by
  unfold ByteSlice.len at h
  have hc : n ≤ s.cap := by unfold ByteSlice.cap; omega
  simp [ByteSlice.sliceTo, hc, List.take_append_of_le_length h]

theorem sliceTo_eq_none_iff (s : ByteSlice) (n : Nat) : s.sliceTo n = none ↔ s.cap < n := by
  unfold ByteSlice.sliceTo
  split <;> simp <;> omega

theorem lor_shiftLeft (acc b k : Nat) (h : acc < 2 ^ k) : acc ||| b <<< k = acc + b * 2 ^ k := by
  rw [Nat.shiftLeft_eq, Nat.lor_comm, Nat.mul_comm b, ← Nat.mul_add_lt_is_or h, Nat.add_comm]

/-- The shifts and ors of `binary.LittleEndian.Uint64` compute the little-endian value of the
first eight bytes. -/
theorem Uint64_eq_littleEndianValue (b : List Byte) (h : 8 ≤ b.length) :
    binary.LittleEndian.Uint64 b = some (littleEndianValue (b.take 8)) := by
  match b, h with
  | b0 :: b1 :: b2 :: b3 :: b4 :: b5 :: b6 :: b7 :: rest, _ =>
    have h0 := b0.isLt
    have h1 := b1.isLt
    have h2 := b2.isLt
    have h3 := b3.isLt
    have h4 := b4.isLt
    have h5 := b5.isLt
    have h6 := b6.isLt
    have h7 := b7.isLt
    simp only [binary.LittleEndian.Uint64, List.take_succ_cons, List.take_zero, littleEndianValue,
      Option.some.injEq]
    rw [lor_shiftLeft _ _ 8 (by omega), lor_shiftLeft _ _ 16 (by omega),
      lor_shiftLeft _ _ 24 (by omega), lor_shiftLeft _ _ 32 (by omega),
      lor_shiftLeft _ _ 40 (by omega), lor_shiftLeft _ _ 48 (by omega),
      lor_shiftLeft _ _ 56 (by omega)]
    omega

theorem Uint64_eq_none_iff (b : List Byte) :
    binary.LittleEndian.Uint64 b = none ↔ b.length < 8 := by
  constructor
  · intro h
    by_contra hlen
    rw [Uint64_eq_littleEndianValue b (by omega)] at h
    simp at h
  · intro h
    match b, h with
    | [], _ => rfl
    | [_], _ => rfl
    | [_, _], _ => rfl
    | [_, _, _], _ => rfl
    | [_, _, _, _], _ => rfl
    | [_, _, _, _, _], _ => rfl
    | [_, _, _, _, _, _], _ => rfl
    | [_, _, _, _, _, _, _], _ => rfl
    | _ :: _ :: _ :: _ :: _ :: _ :: _ :: _ :: _, h => simp at h; omega

theorem reportedProps_eq_none_iff (report : Report) :
    reportedProps report = none ↔ report.ProductID.length < 8 := by
  rw [← Uint64_eq_none_iff]
  unfold reportedProps
  split <;> simp_all

theorem reportedProps_of_length (report : Report) (h : 8 ≤ report.ProductID.length) :
    reportedProps report = some {
      UniqueID := hex.EncodeToString report.UniqueID
      SignerID := hex.EncodeToString report.SignerID
      Debug := report.Debug
      ProductID := some (littleEndianValue (report.ProductID.take 8))
      SecurityVersion := some report.SecurityVersion
      AcceptedTCBStatuses := [] } := by
  simp [reportedProps, Uint64_eq_littleEndianValue report.ProductID h]

/-! ## Issued evidence -/

theorem sliceTo_of_isPrefix (s : ByteSlice) (d : List Byte) (h : d <+: s.elems) :
    s.sliceTo d.length = some d := by
  obtain ⟨t, ht⟩ := h
  have hc : d.length ≤ s.cap := by
    unfold ByteSlice.cap
    rw [← ht, List.length_append]
    omega
  simp [ByteSlice.sliceTo, hc, ← ht, List.append_assoc]

theorem Digest.eq_iff (a b : Digest) : a = b ↔ a.bytes = b.bytes := by
  cases a
  cases b
  simp

/-- Evidence issued for the certificate `c` yields a report whose leading 32 bytes are the digest
of `c`. -/
theorem issued_leading_bytes (E : Collaborators) (c ev : List Byte) (hB : BackendRoundTrip E)
    (hissue : Issue E c = (ev, none)) :
    (E.VerifyRemoteReport ev).1.Data.sliceTo sha256.Size = some (E.Sum256 c).bytes := by
  have h := sliceTo_of_isPrefix _ _ (hB (E.Sum256 c).bytes ev hissue)
  rwa [(E.Sum256 c).size] at h

/-- Validating issued evidence against a matching policy, with a certificate of the same digest,
returns `nil`. -/
theorem issued_same_digest_nil {Infra : Type} (E : Collaborators) (c c2 ev : List Byte)
    (pp : PackageProperties) (infra : Infra) (hB : BackendRoundTrip E)
    (hissue : Issue E c = (ev, none)) (hpol : MatchingPolicy E ev pp)
    (hdig : E.Sum256 c2 = E.Sum256 c) :
    (Validate E ev c2 pp infra).outcome = .returned none := by
  obtain ⟨out, hval⟩ := Validate_of_passed E ev c2 pp infra hpol.1
  rw [hval, afterVerify_nil_iff, hdig]
  exact ⟨issued_leading_bytes E c ev hB hissue, hpol.2⟩

/-- Validating issued evidence with a certificate of another digest returns the binding error. -/
theorem issued_other_digest_mismatch {Infra : Type} (E : Collaborators) (c c2 ev : List Byte)
    (pp : PackageProperties) (infra : Infra) (hB : BackendRoundTrip E)
    (hissue : Issue E c = (ev, none)) (hpass : verificationPassed E ev pp = true)
    (hdig : E.Sum256 c2 ≠ E.Sum256 c) :
    (Validate E ev c2 pp infra).outcome =
      .returned (some (errHashMismatch (E.Sum256 c2) (E.VerifyRemoteReport ev).1.Data)) := by
  obtain ⟨out, hval⟩ := Validate_of_passed E ev c2 pp infra hpass
  have hne : (E.Sum256 c).bytes ≠ (E.Sum256 c2).bytes := fun h =>
    hdig ((Digest.eq_iff _ _).2 h.symm)
  rw [hval, afterVerify_mismatch E _ c2 pp out _ (issued_leading_bytes E c ev hB hissue) hne]

theorem Digest.finite : Finite Digest := by
  have hinj : Function.Injective
      (fun d : Digest => (⟨d.bytes, d.size⟩ : Mathlib.Vector Byte 32)) := by
    intro a b hab
    exact (Digest.eq_iff a b).2 (congrArg Subtype.val hab)
  exact @Finite.of_injective Digest (Mathlib.Vector Byte 32) Mathlib.Vector.finite _ hinj

/-- Every function from byte strings to 32-byte digests maps two different byte strings to the
same digest. So that a changed certificate has a changed digest is a hypothesis on the pair of
certificates at hand, not a property the digest function can have on all pairs. -/
theorem exists_collision (sum256 : List Byte → Digest) :
    ∃ c c2 : List Byte, c ≠ c2 ∧ sum256 c = sum256 c2 := by
  haveI := Digest.finite
  exact Finite.exists_ne_map_eq_of_infinite sum256

theorem Demo.env_roundTrip : BackendRoundTrip Demo.env := by
  intro d ev h
  have hev : ev = 0 :: d := by
    have := congrArg Prod.fst h
    exact this.symm
  subst hev
  exact ⟨_, rfl⟩

theorem Demo.report_reportedProps (d : List Byte) (status : Nat) :
    reportedProps (Demo.report d status) = some {
      UniqueID := "ab01", SignerID := "aa", Debug := false, ProductID := some 1,
      SecurityVersion := some 3, AcceptedTCBStatuses := [] } := by
  rfl

theorem Demo.policy_compliant :
    Demo.isCompliant (Demo.policy []) {
      UniqueID := "ab01", SignerID := "aa", Debug := false, ProductID := some 1,
      SecurityVersion := some 3, AcceptedTCBStatuses := [] } = true := by
  decide

/-! ## Flipping one bit of a certificate -/

theorem flipByteBit_val (b : Byte) (k : Fin 8) : (flipByteBit b k).val = b.val ^^^ 2 ^ k.val := by
  have hb : b.val < 2 ^ 8 := b.isLt
  have hk : 2 ^ k.val < 2 ^ 8 := Nat.pow_lt_pow_right (by decide) k.isLt
  have hlt : b.val ^^^ 2 ^ k.val < 256 := Nat.xor_lt_two_pow hb hk
  simp [flipByteBit, Nat.mod_eq_of_lt hlt]

theorem flipByteBit_ne (b : Byte) (k : Fin 8) : flipByteBit b k ≠ b := by
  intro h
  have hv : b.val ^^^ 2 ^ k.val = b.val := by
    rw [← flipByteBit_val]; exact congrArg Fin.val h
  have ht := congrArg (fun n => Nat.testBit n k.val) hv
  simp [Nat.testBit_xor, Nat.testBit_two_pow_self] at ht

/-- Flipping a bit of one of its bytes changes the certificate. -/
theorem flipBit_ne (c : List Byte) (i : Nat) (k : Fin 8) (hi : i < c.length) :
    flipBit c i k ≠ c := by
  induction c generalizing i with
  | nil => simp at hi
  | cons b rest ih =>
    cases i with
    | zero =>
      intro h
      exact flipByteBit_ne b k (List.cons.inj h).1
    | succ j =>
      intro h
      exact ih j (by simpa using hi) (List.cons.inj h).2

theorem Demo.env_TCBContract : BackendTCBContract Demo.env Demo.isOK := by
  intro q
  cases q with
  | nil => decide
  | cons tag d =>
    by_cases h0 : tag = 0
    · subst h0
      simp [Demo.env, Demo.verify, errorsIsTCBLevelInvalid, Demo.report, Demo.statusString,
        Demo.isOK]
    · by_cases h1 : tag = 1
      · subst h1
        simp [Demo.env, Demo.verify, errorsIsTCBLevelInvalid, Demo.report, Demo.statusString,
          Demo.isOK]
      · simp [Demo.env, Demo.verify, h0, h1, errorsIsTCBLevelInvalid, Demo.zeroReport,
          Demo.statusString, Demo.isOK]

/-! ## Reports that miss the digest -/

theorem exists_other_bytes (h : Digest) : ∃ d : List Byte, d.length = 32 ∧ d ≠ h.bytes := by
  have hsize := h.size
  cases hb : h.bytes with
  | nil => rw [hb] at hsize; simp [sha256.Size] at hsize
  | cons b t =>
    rw [hb] at hsize
    refine ⟨(b + 1) :: t, by simpa [sha256.Size] using hsize, ?_⟩
    intro heq
    have hhead : b + 1 = b := (List.cons.inj heq).1
    have hval := congrArg Fin.val hhead
    rw [Fin.val_add] at hval
    have hlt := b.isLt
    simp at hval
    omega

theorem Demo.report_sliceTo (d : List Byte) (status : Nat) (hd : d.length = 32) :
    (Demo.report d status).Data.sliceTo sha256.Size = some d := by
  have h := sliceTo_of_isPrefix (Demo.report d status).Data d ⟨_, rfl⟩
  rwa [hd] at h


/-! ## The TCB step and fatal verification errors -/

/-- C1: when the backend returns the degraded-trust error together with a report, `Validate`
passes the TCB step iff the status label of the report is an element of the accepted statuses of
the policy; when it is not, `Validate` returns the error `TCB level invalid: <status>`, of class
`TCBRejected`, and the result is the same for every certificate and for every policy with the
same accepted statuses. -/
theorem C1_degraded_trust_accepted_iff_listed {Infra : Type} (E : Collaborators)
    (q cert : List Byte) (pp : PackageProperties) (infra : Infra) (report : Report)
    (err : Option BackendError) (hv : E.VerifyRemoteReport q = (report, err))
    (hdeg : errorsIsTCBLevelInvalid err = true) :
    ((Validate E q cert pp infra).passedTCBStep = true ↔
        E.statusString report.TCBStatus ∈ pp.AcceptedTCBStatuses) ∧
      (E.statusString report.TCBStatus ∉ pp.AcceptedTCBStatuses →
        Validate E q cert pp infra =
            ⟨[], .returned (some (errTCBLevelInvalid (E.statusString report.TCBStatus)))⟩ ∧
          IsTCBRejected (errTCBLevelInvalid (E.statusString report.TCBStatus)) = true ∧
          (errTCBLevelInvalid (E.statusString report.TCBStatus)).Error =
            "TCB level invalid: " ++ E.statusString report.TCBStatus ∧
          ∀ (cert2 : List Byte) (pp2 : PackageProperties),
            pp2.AcceptedTCBStatuses = pp.AcceptedTCBStatuses →
              Validate E q cert2 pp2 infra = Validate E q cert pp infra) := by
  have hrej : E.statusString report.TCBStatus ∉ pp.AcceptedTCBStatuses →
      Validate E q cert pp infra =
        ⟨[], .returned (some (errTCBLevelInvalid (E.statusString report.TCBStatus)))⟩ :=
    Validate_degraded_rejected E q cert pp infra report err hv hdeg
  constructor
  · constructor
    · intro hp
      by_contra hacc
      rw [hrej hacc] at hp
      simp [Run.passedTCBStep, Run.failsWith, (errTCBLevelInvalid_class _).1] at hp
    · intro hacc
      rw [Validate_degraded_accepted E q cert pp infra report err hv hdeg hacc]
      exact afterVerify_passedTCBStep _ _ _ _ _
  · intro hacc
    refine ⟨hrej hacc, (errTCBLevelInvalid_class _).1, rfl, ?_⟩
    intro cert2 pp2 h2
    rw [hrej hacc]
    exact Validate_degraded_rejected E q cert2 pp2 infra report err hv hdeg (by rw [h2]; exact hacc)

/-- C1, on the worked backend: a degraded quote with status `OutOfDate` and a policy that accepts
only `SWHardeningNeeded`. -/
theorem C1_degraded_trust_accepted_iff_listed_witness :
    ((Validate Demo.env [1, 5] [7] (Demo.policy ["SWHardeningNeeded"]) ()).passedTCBStep = true ↔
        Demo.env.statusString (Demo.report [5] 1).TCBStatus ∈
          (Demo.policy ["SWHardeningNeeded"]).AcceptedTCBStatuses) ∧
      (Demo.env.statusString (Demo.report [5] 1).TCBStatus ∉
          (Demo.policy ["SWHardeningNeeded"]).AcceptedTCBStatuses →
        Validate Demo.env [1, 5] [7] (Demo.policy ["SWHardeningNeeded"]) () =
            ⟨[], .returned (some (errTCBLevelInvalid
              (Demo.env.statusString (Demo.report [5] 1).TCBStatus)))⟩ ∧
          IsTCBRejected (errTCBLevelInvalid
            (Demo.env.statusString (Demo.report [5] 1).TCBStatus)) = true ∧
          (errTCBLevelInvalid (Demo.env.statusString (Demo.report [5] 1).TCBStatus)).Error =
            "TCB level invalid: " ++ Demo.env.statusString (Demo.report [5] 1).TCBStatus ∧
          ∀ (cert2 : List Byte) (pp2 : PackageProperties),
            pp2.AcceptedTCBStatuses = (Demo.policy ["SWHardeningNeeded"]).AcceptedTCBStatuses →
              Validate Demo.env [1, 5] cert2 pp2 () =
                Validate Demo.env [1, 5] [7] (Demo.policy ["SWHardeningNeeded"]) ()) :=
  C1_degraded_trust_accepted_iff_listed Demo.env [1, 5] [7] (Demo.policy ["SWHardeningNeeded"]) ()
    (Demo.report [5] 1) (some ⟨"TCB level invalid", true⟩) rfl rfl

/-- C4: when the backend returns an error that is not the degraded-trust error, `Validate`
returns the error `verifying quote: <backend error>`, of class `EvidenceInvalid`, which wraps the
error of the backend, for every certificate and every policy; it does not return `nil`. -/
theorem C4_fatal_verification_error {Infra : Type} (E : Collaborators) (q cert : List Byte)
    (pp : PackageProperties) (infra : Infra) (report : Report) (e : BackendError)
    (hv : E.VerifyRemoteReport q = (report, some e)) (hfatal : e.IsTCBLevelInvalid = false) :
    Validate E q cert pp infra = ⟨[], .returned (some (errVerifyingQuote e))⟩ ∧
      IsEvidenceInvalid (errVerifyingQuote e) = true ∧
      (errVerifyingQuote e).Error = "verifying quote: " ++ e.Error ∧
      (errVerifyingQuote e).Unwrap = some e ∧
      (Validate E q cert pp infra).outcome ≠ .returned none := by
  have h := Validate_fatal E q cert pp infra report e hv hfatal
  refine ⟨h, (errVerifyingQuote_class e).1, rfl, rfl, ?_⟩
  rw [h]
  simp

/-- C4, on the worked backend: a rejected quote and a policy with a non-empty list of accepted
statuses. -/
theorem C4_fatal_verification_error_witness :
    Validate Demo.env [9] [7] (Demo.policy ["OutOfDate"]) () =
        ⟨[], .returned (some (errVerifyingQuote ⟨"OE_VERIFY_FAILED", false⟩))⟩ ∧
      IsEvidenceInvalid (errVerifyingQuote ⟨"OE_VERIFY_FAILED", false⟩) = true ∧
      (errVerifyingQuote ⟨"OE_VERIFY_FAILED", false⟩).Error =
        "verifying quote: " ++ (BackendError.mk "OE_VERIFY_FAILED" false).Error ∧
      (errVerifyingQuote ⟨"OE_VERIFY_FAILED", false⟩).Unwrap = some ⟨"OE_VERIFY_FAILED", false⟩ ∧
      (Validate Demo.env [9] [7] (Demo.policy ["OutOfDate"]) ()).outcome ≠ .returned none :=
  C4_fatal_verification_error Demo.env [9] [7] (Demo.policy ["OutOfDate"]) () Demo.zeroReport
    ⟨"OE_VERIFY_FAILED", false⟩ rfl rfl


/-! ## The binding step and the compliance step -/

/-- C2: when quote verification is passed, `Validate` passes the binding step iff the leading 32
bytes `report.Data[:32]` equal the digest of the certificate; these are the first 32 bytes of
`report.Data` whatever follows them; on a mismatch `Validate` returns the error
`hash(cert) != report.Data: ...`, of class `IdentityMismatch` and not of class
`PolicyNonCompliant`, whatever the compliance predicate answers. -/
theorem C2_binding_step {Infra : Type} (E : Collaborators) (q cert : List Byte)
    (pp : PackageProperties) (infra : Infra)
    (hpass : verificationPassed E q pp = true) :
    ((Validate E q cert pp infra).passedBinding = true ↔
        (E.VerifyRemoteReport q).1.Data.sliceTo sha256.Size = some (E.Sum256 cert).bytes) ∧
      ∀ leading, (E.VerifyRemoteReport q).1.Data.sliceTo sha256.Size = some leading →
        (sha256.Size ≤ (E.VerifyRemoteReport q).1.Data.len →
          leading = (E.VerifyRemoteReport q).1.Data.elems.take 32) ∧
        (leading ≠ (E.Sum256 cert).bytes →
          (Validate E q cert pp infra).outcome =
              .returned (some (errHashMismatch (E.Sum256 cert) (E.VerifyRemoteReport q).1.Data)) ∧
            IsIdentityMismatch
              (errHashMismatch (E.Sum256 cert) (E.VerifyRemoteReport q).1.Data) = true ∧
            IsPolicyNonCompliant
              (errHashMismatch (E.Sum256 cert) (E.VerifyRemoteReport q).1.Data) = false ∧
            ∀ isCompliant2 : PackageProperties → PackageProperties → Bool,
              (Validate { E with IsCompliant := isCompliant2 } q cert pp infra).outcome =
                (Validate E q cert pp infra).outcome) := by
  obtain ⟨out, hval⟩ := Validate_of_passed E q cert pp infra hpass
  have hmis : ∀ leading, (E.VerifyRemoteReport q).1.Data.sliceTo sha256.Size = some leading →
      leading ≠ (E.Sum256 cert).bytes →
      (Validate E q cert pp infra).outcome =
        .returned (some (errHashMismatch (E.Sum256 cert) (E.VerifyRemoteReport q).1.Data)) := by
    intro leading hs hne
    rw [hval, afterVerify_mismatch E _ cert pp out leading hs hne]
  refine ⟨⟨?_, ?_⟩, ?_⟩
  · intro hp
    cases hs : (E.VerifyRemoteReport q).1.Data.sliceTo sha256.Size with
    | none =>
      rw [hval, afterVerify_slice_panic E _ cert pp out hs] at hp
      simp [Run.passedBinding] at hp
    | some leading =>
      by_contra hne
      have hne2 : leading ≠ (E.Sum256 cert).bytes := fun h => hne (by rw [h])
      simp [Run.passedBinding, hmis leading hs hne2, (errHashMismatch_class _ _).2.2.2] at hp
  · intro hs
    rw [hval]
    cases hr : reportedProps (E.VerifyRemoteReport q).1 with
    | none => rw [afterVerify_index_panic E _ cert pp out hs hr]; rfl
    | some reported =>
      cases hc : E.IsCompliant pp reported with
      | false =>
        rw [afterVerify_not_compliant E _ cert pp out reported hs hr hc]
        exact (errNotCompliant_class _ _).1
      | true => rw [afterVerify_compliant E _ cert pp out reported hs hr hc]; rfl
  · intro leading hs
    constructor
    · intro hlen
      rw [sliceTo_of_len _ _ hlen] at hs
      exact (Option.some.inj hs).symm
    · intro hne
      refine ⟨hmis leading hs hne, (errHashMismatch_class _ _).1,
        (errHashMismatch_class _ _).2.2.2, ?_⟩
      intro isCompliant2
      obtain ⟨out2, hval2⟩ :=
        Validate_of_passed { E with IsCompliant := isCompliant2 } q cert pp infra hpass
      rw [hmis leading hs hne, hval2,
        afterVerify_mismatch { E with IsCompliant := isCompliant2 } _ cert pp out2 leading hs hne]

/-- C2, on the worked backend: evidence carrying the digest of `[1, 2]`, presented with the
certificate `[1, 3]`, fails with the binding error. -/
theorem C2_binding_step_witness :
    (Validate Demo.env (0 :: (Demo.sum [1, 2]).bytes) [1, 3] (Demo.policy []) ()).outcome =
      .returned (some (errHashMismatch (Demo.sum [1, 3])
        (Demo.report (Demo.sum [1, 2]).bytes 0).Data)) :=
  (((C2_binding_step Demo.env (0 :: (Demo.sum [1, 2]).bytes) [1, 3] (Demo.policy []) ()
    (by decide)).2 (Demo.sum [1, 2]).bytes (by decide)).2 (by decide)).1

/-- C3: when quote verification and the binding check are passed, `Validate` returns `nil` iff
the policy is compliant with the reported properties; these have the hexadecimal unique ID and
signer ID, the debug flag, the little-endian value of the first 8 bytes of the product ID and the
security version of the report; when the policy is not compliant with them `Validate` returns the
error of class `PolicyNonCompliant` whose message contains the rendering of the policy and the
rendering of the reported properties. -/
theorem C3_compliance_step {Infra : Type} (E : Collaborators) (q cert : List Byte)
    (pp : PackageProperties) (infra : Infra)
    (hpass : verificationPassed E q pp = true)
    (hbind : (E.VerifyRemoteReport q).1.Data.sliceTo sha256.Size = some (E.Sum256 cert).bytes) :
    ((Validate E q cert pp infra).outcome = .returned none ↔
        ∃ reported, reportedProps (E.VerifyRemoteReport q).1 = some reported ∧
          E.IsCompliant pp reported = true) ∧
      ∀ reported, reportedProps (E.VerifyRemoteReport q).1 = some reported →
        reported.UniqueID = hex.EncodeToString (E.VerifyRemoteReport q).1.UniqueID ∧
        reported.SignerID = hex.EncodeToString (E.VerifyRemoteReport q).1.SignerID ∧
        reported.Debug = (E.VerifyRemoteReport q).1.Debug ∧
        reported.ProductID =
          some (littleEndianValue ((E.VerifyRemoteReport q).1.ProductID.take 8)) ∧
        reported.SecurityVersion = some (E.VerifyRemoteReport q).1.SecurityVersion ∧
        (E.IsCompliant pp reported = false →
          (Validate E q cert pp infra).outcome =
              .returned (some (errNotCompliant (E.ppString pp) (E.ppString reported))) ∧
            IsPolicyNonCompliant (errNotCompliant (E.ppString pp) (E.ppString reported)) = true ∧
            Occurs (E.ppString pp)
              (errNotCompliant (E.ppString pp) (E.ppString reported)).Error ∧
            Occurs (E.ppString reported)
              (errNotCompliant (E.ppString pp) (E.ppString reported)).Error) := by
  obtain ⟨out, hval⟩ := Validate_of_passed E q cert pp infra hpass
  constructor
  · rw [hval, afterVerify_nil_iff]
    exact ⟨fun h => h.2, fun h => ⟨hbind, h⟩⟩
  · intro reported hr
    have hprod : 8 ≤ (E.VerifyRemoteReport q).1.ProductID.length := by
      by_contra hlt
      rw [(reportedProps_eq_none_iff _).2 (by omega)] at hr
      simp at hr
    have hrep := Option.some.inj (hr.symm.trans (reportedProps_of_length _ hprod))
    refine ⟨by rw [hrep], by rw [hrep], by rw [hrep], by rw [hrep], by rw [hrep], ?_⟩
    intro hc
    refine ⟨?_, (errNotCompliant_class _ _).1, (errNotCompliant_occurs _ _).1,
      (errNotCompliant_occurs _ _).2⟩
    rw [hval, afterVerify_not_compliant E _ cert pp out reported hbind hr hc]

/-- C3, on the worked backend: evidence bound to the certificate `[1, 2]` whose report has
security version 3, against a policy that requires at least version 2, validates; against a
policy that requires version 4 it fails with the compliance error. -/
theorem C3_compliance_step_witness :
    (Validate Demo.env (0 :: (Demo.sum [1, 2]).bytes) [1, 2] (Demo.policy []) ()).outcome =
        .returned none ∧
      (Validate Demo.env (0 :: (Demo.sum [1, 2]).bytes) [1, 2]
          { Demo.policy [] with SecurityVersion := some 4 } ()).failsWith IsPolicyNonCompliant =
        true := by
  constructor
  · exact (C3_compliance_step Demo.env (0 :: (Demo.sum [1, 2]).bytes) [1, 2] (Demo.policy []) ()
      (by decide) (by decide)).1.2 ⟨_, Demo.report_reportedProps _ 0, Demo.policy_compliant⟩
  · have h := ((C3_compliance_step Demo.env (0 :: (Demo.sum [1, 2]).bytes) [1, 2]
      { Demo.policy [] with SecurityVersion := some 4 } () (by decide) (by decide)).2 _
      (Demo.report_reportedProps _ 0)).2.2.2.2.2 (by decide)
    simp only [Run.failsWith, h.1, h.2.1]

/-! ## Issue followed by Validate -/

/-- C5: round trip. In a backend where verifying issued evidence yields a report that carries the
user data at the start of its user-data field, evidence that `Issue(c)` returns without error
validates against `c` and any matching policy: `Validate` returns `nil`. -/
theorem C5_issue_validate_round_trip {Infra : Type} (E : Collaborators) (c ev : List Byte)
    (pp : PackageProperties) (infra : Infra) (hB : BackendRoundTrip E)
    (hissue : Issue E c = (ev, none)) (hpol : MatchingPolicy E ev pp) :
    (Validate E ev c pp infra).outcome = .returned none :=
  issued_same_digest_nil E c c ev pp infra hB hissue hpol rfl

/-- C5, on the worked backend: the evidence issued for the certificate `[1, 2]` validates. -/
theorem C5_issue_validate_round_trip_witness :
    Issue Demo.env [1, 2] = (0 :: (Demo.sum [1, 2]).bytes, none) ∧
      (Validate Demo.env (0 :: (Demo.sum [1, 2]).bytes) [1, 2] (Demo.policy []) ()).outcome =
        .returned none :=
  ⟨rfl, C5_issue_validate_round_trip Demo.env [1, 2] (0 :: (Demo.sum [1, 2]).bytes)
    (Demo.policy []) () Demo.env_roundTrip rfl
    ⟨by decide, _, Demo.report_reportedProps _ 0, by decide⟩⟩

/-- C6: on evidence issued for the certificate `c`, validated under a matching policy with a
certificate `c2` whose digest differs from the digest of `c`, `Validate` fails with the binding
error, of class `IdentityMismatch`. The binding check fails exactly when the digest changes, and
flipping any single bit of `c` gives a certificate different from `c`, which fails the binding
check as soon as the digest tells it apart from `c`. That a changed certificate has a changed
digest is the collision resistance of `sha256.Sum256`, a collaborator of this code: it is the
hypothesis `hsens`. -/
theorem C6_changed_certificate_fails_binding {Infra : Type} (E : Collaborators)
    (c c2 ev : List Byte) (pp : PackageProperties) (infra : Infra) (hB : BackendRoundTrip E)
    (hissue : Issue E c = (ev, none)) (hpol : MatchingPolicy E ev pp)
    (hsens : E.Sum256 c2 ≠ E.Sum256 c) :
    c2 ≠ c ∧
      (Validate E ev c2 pp infra).failsWith IsIdentityMismatch = true ∧
      (Validate E ev c2 pp infra).outcome =
        .returned (some (errHashMismatch (E.Sum256 c2) (E.VerifyRemoteReport ev).1.Data)) ∧
      (∀ c3 : List Byte, (Validate E ev c3 pp infra).failsWith IsIdentityMismatch = true ↔
        E.Sum256 c3 ≠ E.Sum256 c) ∧
      (∀ (i : Nat) (k : Fin 8), i < c.length →
        flipBit c i k ≠ c ∧
          (E.Sum256 (flipBit c i k) ≠ E.Sum256 c →
            (Validate E ev (flipBit c i k) pp infra).failsWith IsIdentityMismatch = true)) := by
  have hmis : ∀ c3 : List Byte, E.Sum256 c3 ≠ E.Sum256 c →
      (Validate E ev c3 pp infra).outcome =
        .returned (some (errHashMismatch (E.Sum256 c3) (E.VerifyRemoteReport ev).1.Data)) :=
    fun c3 => issued_other_digest_mismatch E c c3 ev pp infra hB hissue hpol.1
  have hfails : ∀ c3 : List Byte, E.Sum256 c3 ≠ E.Sum256 c →
      (Validate E ev c3 pp infra).failsWith IsIdentityMismatch = true := by
    intro c3 hdig
    simp [Run.failsWith, hmis c3 hdig, (errHashMismatch_class _ _).1]
  refine ⟨fun h => hsens (by rw [h]), hfails c2 hsens, hmis c2 hsens, ?_, ?_⟩
  · intro c3
    constructor
    · intro hfail hdig
      have hnil := issued_same_digest_nil E c c3 ev pp infra hB hissue hpol hdig
      simp [Run.failsWith, hnil] at hfail
    · exact hfails c3
  · intro i k hi
    exact ⟨flipBit_ne c i k hi, hfails _⟩

/-- C6, on the worked backend: the evidence issued for the certificate `[1, 2]`, presented with
that certificate after its lowest bit was flipped, fails with the binding error. -/
theorem C6_changed_certificate_fails_binding_witness :
    Issue Demo.env [1, 2] = (0 :: (Demo.sum [1, 2]).bytes, none) ∧
      flipBit [1, 2] 0 0 = [0, 2] ∧
      Demo.sum (flipBit [1, 2] 0 0) ≠ Demo.sum [1, 2] ∧
      (Validate Demo.env (0 :: (Demo.sum [1, 2]).bytes) (flipBit [1, 2] 0 0)
        (Demo.policy []) ()).failsWith IsIdentityMismatch = true :=
  ⟨rfl, by decide, by decide,
    (C6_changed_certificate_fails_binding Demo.env [1, 2] (flipBit [1, 2] 0 0)
      (0 :: (Demo.sum [1, 2]).bytes) (Demo.policy []) () Demo.env_roundTrip rfl
      ⟨by decide, _, Demo.report_reportedProps _ 0, by decide⟩ (by decide)).2.1⟩

/-! ## TCB verdict and the warning line -/

/-- The call fails with `TCBRejected` iff the backend returned the degraded-trust error and the
status label of the report is not an element of the accepted statuses of the policy. -/
theorem failsWith_TCBRejected_iff {Infra : Type} (E : Collaborators)
    (q cert : List Byte) (pp : PackageProperties) (infra : Infra) :
    (Validate E q cert pp infra).failsWith IsTCBRejected = true ↔
      (errorsIsTCBLevelInvalid (E.VerifyRemoteReport q).2 = true ∧
        E.statusString (E.VerifyRemoteReport q).1.TCBStatus ∉ pp.AcceptedTCBStatuses) := by
  rcases hv : E.VerifyRemoteReport q with ⟨report, err⟩
  cases hd : errorsIsTCBLevelInvalid err with
  | true =>
    by_cases hacc : E.statusString report.TCBStatus ∈ pp.AcceptedTCBStatuses
    · rw [Validate_degraded_accepted E q cert pp infra report err hv hd hacc,
        afterVerify_not_TCBRejected]
      simp [hacc]
    · rw [Validate_degraded_rejected E q cert pp infra report err hv hd hacc]
      simp [Run.failsWith, (errTCBLevelInvalid_class _).1, hacc]
  | false =>
    cases err with
    | none =>
      rw [Validate_clean E q cert pp infra report hv, afterVerify_not_TCBRejected]
      simp
    | some e =>
      rw [Validate_fatal E q cert pp infra report e hv hd]
      simp [Run.failsWith, (errVerifyingQuote_class _).2.1]

/-- C7: in a backend that returns the degraded-trust error exactly when the status label of the
report is not OK, the TCB verdict of `Validate` is determined by the status label: a report whose
label is OK never fails with `TCBRejected`, a report whose label is not OK and not an element of
the accepted statuses of the policy fails with `TCBRejected`, carrying the label, and `Validate`
fails with `TCBRejected` exactly in that case. -/
theorem C7_TCB_verdict_by_status_label {Infra : Type} (E : Collaborators)
    (isOK : String → Bool) (q cert : List Byte) (pp : PackageProperties) (infra : Infra)
    (hB : BackendTCBContract E isOK) :
    (isOK (E.statusString (E.VerifyRemoteReport q).1.TCBStatus) = true →
        (Validate E q cert pp infra).failsWith IsTCBRejected = false) ∧
      (isOK (E.statusString (E.VerifyRemoteReport q).1.TCBStatus) = false →
        E.statusString (E.VerifyRemoteReport q).1.TCBStatus ∉ pp.AcceptedTCBStatuses →
          (Validate E q cert pp infra).failsWith IsTCBRejected = true ∧
            Validate E q cert pp infra = ⟨[], .returned (some (errTCBLevelInvalid
              (E.statusString (E.VerifyRemoteReport q).1.TCBStatus)))⟩) ∧
      ((Validate E q cert pp infra).failsWith IsTCBRejected = true ↔
        (isOK (E.statusString (E.VerifyRemoteReport q).1.TCBStatus) = false ∧
          E.statusString (E.VerifyRemoteReport q).1.TCBStatus ∉ pp.AcceptedTCBStatuses)) := by
  have hiff := failsWith_TCBRejected_iff E q cert pp infra
  have hq := hB q
  refine ⟨?_, ?_, ?_⟩
  · intro hok
    rw [← Bool.not_eq_true, hiff]
    rintro ⟨hdeg, _⟩
    rw [hq.1 hdeg] at hok
    exact Bool.false_ne_true hok
  · intro hnok hacc
    refine ⟨hiff.2 ⟨hq.2 hnok, hacc⟩, ?_⟩
    exact Validate_degraded_rejected E q cert pp infra (E.VerifyRemoteReport q).1
      (E.VerifyRemoteReport q).2 rfl (hq.2 hnok) hacc
  · rw [hiff, hq]

/-- C7, on the worked backend: a degraded quote with label `OutOfDate` is rejected by a policy
that accepts no status, and a clean quote with label `UpToDate` is not rejected with
`TCBRejected`. -/
theorem C7_TCB_verdict_by_status_label_witness :
    (Validate Demo.env [1, 5] [7] (Demo.policy []) ()).failsWith IsTCBRejected = true ∧
      (Validate Demo.env [0, 5] [7] (Demo.policy []) ()).failsWith IsTCBRejected = false :=
  ⟨((C7_TCB_verdict_by_status_label Demo.env Demo.isOK [1, 5] [7] (Demo.policy []) ()
      Demo.env_TCBContract).2.1 (by decide) (by decide)).1,
    (C7_TCB_verdict_by_status_label Demo.env Demo.isOK [0, 5] [7] (Demo.policy []) ()
      Demo.env_TCBContract).1 (by decide)⟩

/-- C8 as stated fails: a degraded-trust-but-accepted call need not return `nil`. On the worked
backend, degraded evidence for the certificate `[1, 2]` presented with the certificate `[1, 3]`
writes the warning and returns the binding error; and whatever the digest function is, some
degraded-trust-but-accepted call on a report with 32 bytes of user data and a compliant policy
does not return `nil`. -/
theorem C8_warning_then_binding_error :
    Validate Demo.env (1 :: (Demo.sum [1, 2]).bytes) [1, 3] (Demo.policy ["OutOfDate"]) () =
        ⟨[warningLine "OutOfDate"], .returned (some (errHashMismatch (Demo.sum [1, 3])
          (Demo.report (Demo.sum [1, 2]).bytes 1).Data))⟩ ∧
      ¬ ∃ sum256 : List Byte → Digest, ∀ d : List Byte, d.length = 32 →
        (Validate (Demo.envOf sum256 (Demo.report d 1) (some ⟨"TCB level invalid", true⟩))
          [] [] (Demo.policy ["OutOfDate"]) ()).outcome = .returned none := by
  constructor
  · rfl
  · rintro ⟨sum256, h⟩
    obtain ⟨d, hd, hne⟩ := exists_other_bytes (sum256 [])
    have hnil := h d hd
    have hacc : Demo.statusString 1 ∈ (Demo.policy ["OutOfDate"]).AcceptedTCBStatuses := by
      decide
    rw [Validate_degraded_accepted _ _ _ _ _ (Demo.report d 1)
        (some ⟨"TCB level invalid", true⟩) rfl rfl hacc,
      afterVerify_mismatch _ _ _ _ _ d (Demo.report_sliceTo d 1 hd) hne] at hnil
    simp at hnil

/-- C8, amended: a degraded-trust-but-accepted call writes exactly one warning line, which names
the status label, and goes on with the binding and compliance checks: it returns `nil` iff the
leading 32 bytes of the report data equal the digest of the certificate and the policy is
compliant with the reported properties. Every call that is not degraded-trust-but-accepted
writes nothing. -/
theorem C8_one_warning_iff_degraded_accepted {Infra : Type} (E : Collaborators)
    (q cert : List Byte) (pp : PackageProperties) (infra : Infra) :
    (degradedAccepted E q pp = true →
        (Validate E q cert pp infra).stdout =
            [warningLine (E.statusString (E.VerifyRemoteReport q).1.TCBStatus)] ∧
          Occurs (E.statusString (E.VerifyRemoteReport q).1.TCBStatus)
            (warningLine (E.statusString (E.VerifyRemoteReport q).1.TCBStatus)) ∧
          ((Validate E q cert pp infra).outcome = .returned none ↔
            (E.VerifyRemoteReport q).1.Data.sliceTo sha256.Size = some (E.Sum256 cert).bytes ∧
              ∃ reported, reportedProps (E.VerifyRemoteReport q).1 = some reported ∧
                E.IsCompliant pp reported = true)) ∧
      (degradedAccepted E q pp = false → (Validate E q cert pp infra).stdout = []) := by
  rcases hv : E.VerifyRemoteReport q with ⟨report, err⟩
  constructor
  · intro hda
    simp only [degradedAccepted, hv, Bool.and_eq_true, StringSliceContains_iff] at hda
    rw [Validate_degraded_accepted E q cert pp infra report err hv hda.1 hda.2]
    exact ⟨afterVerify_stdout _ _ _ _ _, ⟨_, _, rfl⟩, afterVerify_nil_iff _ _ _ _ _⟩
  · intro hda
    cases hd : errorsIsTCBLevelInvalid err with
    | true =>
      have hacc : E.statusString report.TCBStatus ∉ pp.AcceptedTCBStatuses := by
        intro hin
        simp [degradedAccepted, hv, hd, (StringSliceContains_iff _ _).2 hin] at hda
      rw [Validate_degraded_rejected E q cert pp infra report err hv hd hacc]
    | false =>
      cases err with
      | none => rw [Validate_clean E q cert pp infra report hv, afterVerify_stdout]
      | some e => rw [Validate_fatal E q cert pp infra report e hv hd]

/-- C8 amended, on the worked backend: degraded evidence bound to the certificate `[1, 2]`, under
a policy that accepts `OutOfDate`, writes one warning and validates. -/
theorem C8_one_warning_iff_degraded_accepted_witness :
    (Validate Demo.env (1 :: (Demo.sum [1, 2]).bytes) [1, 2]
        (Demo.policy ["OutOfDate"]) ()).stdout = [warningLine "OutOfDate"] ∧
      (Validate Demo.env [0, 5] [1, 2] (Demo.policy ["OutOfDate"]) ()).stdout = [] :=
  ⟨((C8_one_warning_iff_degraded_accepted Demo.env (1 :: (Demo.sum [1, 2]).bytes) [1, 2]
      (Demo.policy ["OutOfDate"]) ()).1 (by decide)).1,
    (C8_one_warning_iff_degraded_accepted Demo.env [0, 5] [1, 2]
      (Demo.policy ["OutOfDate"]) ()).2 (by decide)⟩


/-! ## The Marble server bootstrap -/

/-- C9: in the trace of `RunMarbleServer`, if binding succeeds the bound address is sent on
`addrChan` exactly once, before the serve loop is entered, the serve loop is entered once, and an
error is sent on `errChan` only when `Serve` returns a non-nil error (then exactly that error,
once, after the serve loop was entered); if binding fails the bind error is sent on `errChan`
exactly once, nothing is sent on `addrChan` and the serve loop is not entered. -/
theorem C9_bind_result_signalled_once (N : Network) (addr : String) :
    (∀ socket, N.Listen addr = .ok socket →
        addrSends (RunMarbleServer N addr) = [socket.addr] ∧
          addrSends (beforeServe (RunMarbleServer N addr)) = [socket.addr] ∧
          serveEntries (RunMarbleServer N addr) = [socket] ∧
          errSends (beforeServe (RunMarbleServer N addr)) = [] ∧
          (∀ err, N.Serve socket = .returns (some err) →
            RunMarbleServer N addr = [.sendAddr socket.addr, .serve socket, .sendErr err] ∧
              errSends (RunMarbleServer N addr) = [err]) ∧
          ((N.Serve socket = .returns none ∨ N.Serve socket = .blocks) →
            RunMarbleServer N addr = [.sendAddr socket.addr, .serve socket] ∧
              errSends (RunMarbleServer N addr) = [])) ∧
      (∀ err, N.Listen addr = .error err →
        RunMarbleServer N addr = [.sendErr err] ∧
          errSends (RunMarbleServer N addr) = [err] ∧
          addrSends (RunMarbleServer N addr) = [] ∧
          serveEntries (RunMarbleServer N addr) = []) := by
  constructor
  · intro socket hl
    cases hs : N.Serve socket with
    | blocks => simp [RunMarbleServer, hl, hs, addrSends, errSends, serveEntries, beforeServe]
    | returns e =>
      cases e with
      | none => simp [RunMarbleServer, hl, hs, addrSends, errSends, serveEntries, beforeServe]
      | some err =>
        simp [RunMarbleServer, hl, hs, addrSends, errSends, serveEntries, beforeServe]
  · intro err hl
    simp [RunMarbleServer, hl, addrSends, errSends, serveEntries]

/-- C9, on the worked network: binding `localhost:0` sends the address `127.0.0.1:4242` once and
the error of the serve loop afterwards; binding `localhost:1` sends the bind error only. -/
theorem C9_bind_result_signalled_once_witness :
    RunMarbleServer Demo.network "localhost:0" =
        [.sendAddr "127.0.0.1:4242", .serve ⟨"127.0.0.1:4242"⟩,
          .sendErr "use of closed network connection"] ∧
      RunMarbleServer Demo.network "localhost:1" = [.sendErr "address already in use"] :=
  ⟨(((C9_bind_result_signalled_once Demo.network "localhost:0").1 ⟨"127.0.0.1:4242"⟩
      rfl).2.2.2.2.1 "use of closed network connection" rfl).1,
    ((C9_bind_result_signalled_once Demo.network "localhost:1").2 "address already in use"
      rfl).1⟩

/-! ## Bounds of the slice and of the product ID read -/

/-- C10 as stated fails: a report with a product ID shorter than 8 bytes does not always make
`Validate` panic. On the worked digest, a report with an empty product ID whose data does not
carry the digest of the certificate makes `Validate` return the binding error; whatever the
digest function is, some such report with 32 bytes of user data makes `Validate` end without a
panic; and a report whose data has length 0 and capacity 32 is sliced without a panic. -/
theorem C10_short_field_without_panic :
    (Validate (Demo.envOf Demo.sum { Demo.report (Demo.sum [1, 2]).bytes 0 with ProductID := [] }
        none) [] [1, 3] (Demo.policy []) ()).outcome =
        .returned (some (errHashMismatch (Demo.sum [1, 3])
          (Demo.report (Demo.sum [1, 2]).bytes 0).Data)) ∧
      (¬ ∃ sum256 : List Byte → Digest, ∀ d : List Byte, d.length = 32 →
        ∃ p, (Validate (Demo.envOf sum256 { Demo.report d 0 with ProductID := [] } none)
          [] [] (Demo.policy []) ()).outcome = .panicked p) ∧
      (Validate (Demo.envOf Demo.sum
          { Demo.report [] 0 with Data := ⟨[], (Demo.sum [1, 2]).bytes⟩ } none)
        [] [1, 2] (Demo.policy []) ()).outcome = .returned none := by
  refine ⟨by rfl, ?_, by rfl⟩
  rintro ⟨sum256, h⟩
  obtain ⟨d, hd, hne⟩ := exists_other_bytes (sum256 [])
  obtain ⟨p, hp⟩ := h d hd
  have hs : ({ Demo.report d 0 with ProductID := [] } : Report).Data.sliceTo sha256.Size
      = some d := Demo.report_sliceTo d 0 hd
  rw [Validate_clean _ _ _ _ _ { Demo.report d 0 with ProductID := [] } rfl,
    afterVerify_mismatch _ _ _ _ _ d hs hne] at hp
  simp at hp

/-- C10, amended: when quote verification is passed (also on the degraded-trust path), `Validate`
does not panic provided the report data holds at least 32 bytes and the product ID at least 8
bytes; it panics at the slice `report.Data[:32]` iff the capacity of the report data is below 32;
and with a product ID shorter than 8 bytes it panics at the product ID read when the leading 32
bytes equal the digest of the certificate, and otherwise returns the binding error. -/
theorem C10_bounds_of_slice_and_read {Infra : Type} (E : Collaborators) (q cert : List Byte)
    (pp : PackageProperties) (infra : Infra) (hpass : verificationPassed E q pp = true) :
    (sha256.Size ≤ (E.VerifyRemoteReport q).1.Data.len →
        8 ≤ (E.VerifyRemoteReport q).1.ProductID.length →
          ∀ p, (Validate E q cert pp infra).outcome ≠ .panicked p) ∧
      ((Validate E q cert pp infra).outcome =
          .panicked (.sliceBounds sha256.Size (E.VerifyRemoteReport q).1.Data.cap) ↔
        (E.VerifyRemoteReport q).1.Data.cap < sha256.Size) ∧
      ((E.VerifyRemoteReport q).1.ProductID.length < 8 →
        ∀ leading, (E.VerifyRemoteReport q).1.Data.sliceTo sha256.Size = some leading →
          (leading = (E.Sum256 cert).bytes →
            (Validate E q cert pp infra).outcome =
              .panicked (.indexOutOfRange 7 (E.VerifyRemoteReport q).1.ProductID.length)) ∧
          (leading ≠ (E.Sum256 cert).bytes →
            (Validate E q cert pp infra).outcome =
              .returned (some (errHashMismatch (E.Sum256 cert)
                (E.VerifyRemoteReport q).1.Data)))) := by
  obtain ⟨out, hval⟩ := Validate_of_passed E q cert pp infra hpass
  refine ⟨?_, ?_, ?_⟩
  · intro hdata hprod p hpanic
    have hs := sliceTo_of_len _ _ hdata
    have hr := reportedProps_of_length _ hprod
    rw [hval] at hpanic
    by_cases hne : (E.VerifyRemoteReport q).1.Data.elems.take sha256.Size = (E.Sum256 cert).bytes
    · rw [hne] at hs
      cases hc : E.IsCompliant pp _ with
      | false =>
        rw [afterVerify_not_compliant E _ cert pp out _ hs hr hc] at hpanic
        simp at hpanic
      | true =>
        rw [afterVerify_compliant E _ cert pp out _ hs hr hc] at hpanic
        simp at hpanic
    · rw [afterVerify_mismatch E _ cert pp out _ hs hne] at hpanic
      simp at hpanic
  · rw [hval, ← sliceTo_eq_none_iff]
    constructor
    · intro hpanic
      by_contra hsome
      obtain ⟨leading, hs⟩ := Option.ne_none_iff_exists'.mp hsome
      by_cases hne : leading = (E.Sum256 cert).bytes
      · subst hne
        cases hr : reportedProps (E.VerifyRemoteReport q).1 with
        | none =>
          rw [afterVerify_index_panic E _ cert pp out hs hr] at hpanic
          simp at hpanic
        | some reported =>
          cases hc : E.IsCompliant pp reported with
          | false =>
            rw [afterVerify_not_compliant E _ cert pp out reported hs hr hc] at hpanic
            simp at hpanic
          | true =>
            rw [afterVerify_compliant E _ cert pp out reported hs hr hc] at hpanic
            simp at hpanic
      · rw [afterVerify_mismatch E _ cert pp out leading hs hne] at hpanic
        simp at hpanic
    · intro hs
      rw [afterVerify_slice_panic E _ cert pp out hs]
  · intro hprod leading hs
    have hr := (reportedProps_eq_none_iff _).2 hprod
    constructor
    · intro heq
      subst heq
      rw [hval, afterVerify_index_panic E _ cert pp out hs hr]
    · intro hne
      rw [hval, afterVerify_mismatch E _ cert pp out leading hs hne]

/-- C10 amended, on the worked backend: degraded evidence bound to the certificate `[1, 2]`, whose
report has 64 bytes of data and 8 bytes of product ID, is validated without a panic. -/
theorem C10_bounds_of_slice_and_read_witness :
    ¬ ∃ p, (Validate Demo.env (1 :: (Demo.sum [1, 2]).bytes) [1, 2]
      (Demo.policy ["OutOfDate"]) ()).outcome = .panicked p :=
  fun ⟨p, hp⟩ =>
    (C10_bounds_of_slice_and_read Demo.env (1 :: (Demo.sum [1, 2]).bytes) [1, 2]
      (Demo.policy ["OutOfDate"]) () (by decide)).1 (by decide) (by decide) p hp

end Marblerun
